import Mathlib

/-!
Shallow embedding of the comfy-print resilient output queue
(src/async_impl.rs, src/message.rs, src/printing_state.rs, src/config/*).

The Rust code is sequentialised: the global `QUEUE`, the written-stream
history and the disk-log file become explicit state (`DrainState`), and the
outcomes of the OS calls (stream writes, thread spawning, file opening, disk
writes) are supplied by an oracle environment (`Env`), indexed by a call
counter where the source performs repeated fallible calls.
-/

namespace ComfyPrint

/-- Which stream to write to; `OutputKind` from src/message.rs. -/
inductive OutputKind
  | Stdout
  | Stderr
deriving DecidableEq

/-- A pending message; `Message` from src/message.rs
(content, target stream, trailing-newline flag). -/
structure Message where
  string : String
  output : OutputKind
  should_append_line : Bool
deriving DecidableEq

/-- `Message::standard` from src/message.rs. -/
def Message.standard (s : String) : Message :=
  ⟨s, OutputKind.Stdout, false⟩

/-- `Message::standard_ln` from src/message.rs. -/
def Message.standard_ln (s : String) : Message :=
  ⟨s, OutputKind.Stdout, true⟩

/-- `Message::error` from src/message.rs. -/
def Message.error (s : String) : Message :=
  ⟨s, OutputKind.Stderr, false⟩

/-- `Message::error_ln` from src/message.rs. -/
def Message.error_ln (s : String) : Message :=
  ⟨s, OutputKind.Stderr, true⟩

/-- The `Display` impl of `Message` from src/message.rs:
the stored text, with a newline appended when the flag is set. -/
def Message.format (m : Message) : String :=
  if m.should_append_line then m.string ++ "\n" else m.string

/-- Modelled from the spec: the overflow-policy enum `On_QueueFull`
(the file src/config/on_queue_full.rs is declared in src/config/mod.rs but is
missing from the tree; the spec gives the two values KeepNewest / KeepOldest). -/
inductive On_QueueFull
  | KeepNewest
  | KeepOldest
deriving DecidableEq

/-- `On_QueuePrintingFail` from src/config/on_queue_printing_fail.rs. -/
inductive On_QueuePrintingFail
  | TryUntilMaxRetries
  | Return
deriving DecidableEq

/-- `On_MaxRetriesReached` from src/config/on_max_retries_reached.rs. -/
inductive On_MaxRetriesReached
  | Return
  | WriteToDisk
deriving DecidableEq

/-- Snapshot of the global configuration atomics (src/config/*), read at the
decision points of src/async_impl.rs. The sequential model reads one coherent
snapshot, which is faithful for single-threaded executions. -/
structure Config where
  max_retries : Nat
  max_queue_length : Nat
  on_queue_full : On_QueueFull
  on_queue_printing_fail : On_QueuePrintingFail
  on_max_retries_reached : On_MaxRetriesReached
  allow_logging_print_failures : Bool

/-- Oracle for the fallible OS operations performed by src/async_impl.rs.
`osWrite n` is the outcome of the n-th `try_write` call (true = `Ok`), and
`errOf n` the `Display` text of the `std::io::Error` it returns on failure;
`diskWrite` / `diskErrOf` play the same role for the `write!(file, ...)` calls
of the disk fallback, `diskOpen` for `config::log_io_path::get_file()`, and
`spawnOk` / `spawnErr` for `thread::Builder::spawn` in `check_state`. -/
structure Env where
  osWrite : Nat → Bool
  errOf : Nat → String
  spawnOk : Bool
  spawnErr : String
  diskOpen : Bool
  diskWrite : Nat → Bool
  diskErrOf : Nat → String

/-- The observable state threaded through the embedded code: the global
`QUEUE` (src/async_impl.rs line 13), the history of messages successfully
written to the OS streams, the content appended to the disk-log file, and the
two oracle counters. -/
structure DrainState where
  queue : List Message
  written : List Message
  disk : List Message
  tick : Nat
  dtick : Nat
deriving DecidableEq

/-- Call-description string used at the fast-path failure site of
`comfy_print_async` (src/async_impl.rs line 61). -/
def fastFailDesc : String :=
  "comfy_print::async_impl::comfy_print_async(): Failed to print message, creating queue..."

/-- Call-description string used on thread-spawn failure in `check_state`
(src/async_impl.rs line 103). -/
def checkStateDesc : String :=
  "`comfy_print::async_impl::check_state()`: Failed to create a thread to print the queue."

/-- Call-description string used by `reinsert_message`
(src/async_impl.rs line 167). -/
def reinsertDesc : String :=
  "`comfy_print::async_impl::print_until_empty()`: Failed to print first message in queue."

/-- Call-description string used on disk-write failure in `on_max_retries`
(src/async_impl.rs line 193). -/
def diskFailDesc : String :=
  "`comfy_print::async_impl::on_max_retries_reached()`: Failed to write to log file."

/-- The synthetic diagnostic message built by `try_insert_write_err` /
`owned_try_insert_write_err`: `Message::error_ln(format!("{desc}\nError: {err}."))`. -/
def synthMsg (err call_description : String) : Message :=
  Message.error_ln (call_description ++ "\nError: " ++ err ++ ".")

/-- `owned_try_insert_write_err` from src/async_impl.rs (lines 276-285): if
`allow_logging_print_failures` is set and the queue is strictly below
`max_queue_length`, insert a synthetic error message at index 0. -/
def owned_try_insert_write_err (cfg : Config) (queue : List Message)
    (err call_description : String) : List Message :=
  if cfg.allow_logging_print_failures = false then
    queue
  else if queue.length < cfg.max_queue_length then
    synthMsg err call_description :: queue
  else
    queue

/-- `try_insert_write_err` from src/async_impl.rs (lines 260-272): locks the
queue and performs exactly the body of `owned_try_insert_write_err`; in the
sequential model the two coincide. -/
def try_insert_write_err (cfg : Config) (queue : List Message)
    (err call_description : String) : List Message :=
  owned_try_insert_write_err cfg queue err call_description

/-- The queue update of the non-empty-queue branch of `comfy_print_async`
(src/async_impl.rs lines 67-73): push when under capacity; at capacity,
`KeepNewest` removes index 0 and pushes, otherwise the message is discarded. -/
def submit_enqueue (cfg : Config) (queue : List Message) (msg : Message) :
    List Message :=
  if queue.length < cfg.max_queue_length then
    queue ++ [msg]
  else if cfg.on_queue_full = On_QueueFull.KeepNewest then
    queue.tail ++ [msg]
  else
    queue

/-- The queue update of the fast-path failure branch of `comfy_print_async`
(src/async_impl.rs lines 59-61): insert the message at index 0, then
`owned_try_insert_write_err`. -/
def fast_fail_enqueue (cfg : Config) (queue : List Message) (msg : Message)
    (err : String) : List Message :=
  owned_try_insert_write_err cfg (msg :: queue) err fastFailDesc

/-- `reinsert_message` from src/async_impl.rs (lines 156-169): insert the
failed message at index 0 when under capacity; at capacity, `KeepOldest` pops
the last element and inserts at index 0, while `KeepNewest` leaves the queue
unchanged (the failed message is discarded); then `owned_try_insert_write_err`. -/
def reinsert_message (cfg : Config) (queue : List Message) (msg : Message)
    (err : String) : List Message :=
  let q1 :=
    if queue.length < cfg.max_queue_length then
      msg :: queue
    else
      match cfg.on_queue_full with
      | On_QueueFull.KeepOldest => msg :: queue.dropLast
      | On_QueueFull.KeepNewest => queue
  owned_try_insert_write_err cfg q1 err reinsertDesc

/-- The `while !queue_guard.is_empty()` loop of the `WriteToDisk` branch of
`on_max_retries` (src/async_impl.rs lines 183-197): write the head message to
the file; on success remove it and continue, on failure record a synthetic
error message and break. -/
def flush_loop (cfg : Config) (env : Env) (s : DrainState) : DrainState :=
  match hq : s.queue with
  | [] => s
  | msg :: rest =>
    if env.diskWrite s.dtick then
      flush_loop cfg env
        { s with queue := rest, disk := s.disk ++ [msg], dtick := s.dtick + 1 }
    else
      { s with
          queue := owned_try_insert_write_err cfg s.queue (env.diskErrOf s.dtick) diskFailDesc,
          dtick := s.dtick + 1 }
termination_by s.queue.length
decreasing_by
  simp [hq]

/-- `on_max_retries` from src/async_impl.rs (lines 172-204): `Return` does
nothing; `WriteToDisk` opens the configured log file (returning when the open
fails) and runs the flush loop. -/
def on_max_retries (cfg : Config) (env : Env) (s : DrainState) : DrainState :=
  match cfg.on_max_retries_reached with
  | On_MaxRetriesReached.Return => s
  | On_MaxRetriesReached.WriteToDisk =>
    if env.diskOpen then flush_loop cfg env s else s

/-- `print_until_empty` from src/async_impl.rs (lines 120-151): remove the
head, release the lock, attempt the write; on success recurse with the retry
counter unchanged; on failure under `TryUntilMaxRetries` reinsert and either
recurse with the counter incremented (while below `max_retries`) or invoke
the exhaustion handler; under `Return` reinsert and stop. -/
def print_until_empty (cfg : Config) (env : Env)
    (max_retries retries : Nat) (s : DrainState) : DrainState :=
  match hq : s.queue with
  | [] => s
  | msg :: rest =>
    if env.osWrite s.tick then
      print_until_empty cfg env max_retries retries
        { s with queue := rest, written := s.written ++ [msg], tick := s.tick + 1 }
    else
      match cfg.on_queue_printing_fail with
      | On_QueuePrintingFail.TryUntilMaxRetries =>
        if h : retries < max_retries then
          print_until_empty cfg env max_retries (retries + 1)
            { s with
                queue := reinsert_message cfg rest msg (env.errOf s.tick),
                tick := s.tick + 1 }
        else
          on_max_retries cfg env
            { s with
                queue := reinsert_message cfg rest msg (env.errOf s.tick),
                tick := s.tick + 1 }
      | On_QueuePrintingFail.Return =>
        { s with
            queue := reinsert_message cfg rest msg (env.errOf s.tick),
            tick := s.tick + 1 }
termination_by (max_retries - retries, s.queue.length)
decreasing_by
  · apply Prod.Lex.right
    simp [hq]
  · apply Prod.Lex.left
    omega

/-- `start_printing_queue` from src/async_impl.rs (lines 115-117). -/
def start_printing_queue (cfg : Config) (env : Env) (s : DrainState) : DrainState :=
  print_until_empty cfg env cfg.max_retries 0 s

/-- `check_state` from src/async_impl.rs (lines 83-112), sequentialised for
the single-threaded executions the functional claims quantify over (the state
lock is acquired and no drainer is active, so a drain always runs; the
spawn-failure branch first records a synthetic diagnostic). The concurrent
arbitration itself is modelled separately by `ArbStep`. -/
def check_state (cfg : Config) (env : Env) (s : DrainState) : DrainState :=
  if env.spawnOk then
    start_printing_queue cfg env s
  else
    start_printing_queue cfg env
      { s with queue := try_insert_write_err cfg s.queue env.spawnErr checkStateDesc }

/-- `comfy_print_async` from src/async_impl.rs (lines 46-80): with an empty
queue, attempt an immediate write; on failure drop the message when
`max_queue_length == 0`, otherwise insert it at index 0 (plus optional
diagnostic) and arbitrate; with a non-empty queue, apply the overflow policy
and arbitrate. -/
def comfy_print_async (cfg : Config) (env : Env) (s : DrainState)
    (msg : Message) : DrainState :=
  if s.queue.length = 0 then
    if env.osWrite s.tick then
      { s with written := s.written ++ [msg], tick := s.tick + 1 }
    else if cfg.max_queue_length = 0 then
      { s with tick := s.tick + 1 }
    else
      check_state cfg env
        { s with
            queue := fast_fail_enqueue cfg s.queue msg (env.errOf s.tick),
            tick := s.tick + 1 }
  else
    check_state cfg env { s with queue := submit_enqueue cfg s.queue msg }

/-- Submitting a sequence of messages through `comfy_print_async`. -/
def submit_all (cfg : Config) (env : Env) (s : DrainState)
    (msgs : List Message) : DrainState :=
  msgs.foldl (comfy_print_async cfg env) s

/-- `print_until_empty` with an explicit fuel budget: one unit of fuel is
consumed per entry into the function body, `none` meaning the budget was
exhausted before the source recursion reached a `return`. Used to express
that the recursion depth of the drain loop is bounded. -/
def print_until_empty_fuel (cfg : Config) (env : Env) :
    Nat → Nat → Nat → DrainState → Option DrainState
  | 0, _, _, _ => none
  | fuel + 1, max_retries, retries, s =>
    match s.queue with
    | [] => some s
    | msg :: rest =>
      if env.osWrite s.tick then
        print_until_empty_fuel cfg env fuel max_retries retries
          { s with queue := rest, written := s.written ++ [msg], tick := s.tick + 1 }
      else
        match cfg.on_queue_printing_fail with
        | On_QueuePrintingFail.TryUntilMaxRetries =>
          if retries < max_retries then
            print_until_empty_fuel cfg env fuel max_retries (retries + 1)
              { s with
                  queue := reinsert_message cfg rest msg (env.errOf s.tick),
                  tick := s.tick + 1 }
          else
            some (on_max_retries cfg env
              { s with
                  queue := reinsert_message cfg rest msg (env.errOf s.tick),
                  tick := s.tick + 1 })
        | On_QueuePrintingFail.Return =>
          some { s with
              queue := reinsert_message cfg rest msg (env.errOf s.tick),
              tick := s.tick + 1 }

/-- `PrintingState` from src/printing_state.rs. A `Threaded` worker handle is
abstracted to the one bit `is_finished` observes. -/
inductive PState
  | Idle
  | Threaded (finished : Bool)
  | Synchronous
deriving DecidableEq

/-- `PrintingState::is_busy` from src/printing_state.rs (lines 9-17):
`Idle` is not busy, `Threaded(handle)` is busy exactly while the handle is
not finished, `Synchronous` is busy. -/
def PState.is_busy : PState → Bool
  | PState.Idle => false
  | PState.Threaded finished => finished == false
  | PState.Synchronous => true

/-- Global arbitration state for the concurrent model of `check_state`
(src/async_impl.rs lines 83-112): whether some submitter currently holds the
`STATE` fair mutex, the stored `PrintingState`, and the number of threads
currently executing `print_until_empty`. -/
structure ArbSys where
  lockHeld : Bool
  pstate : PState
  drainers : Nat

/-- One atomic transition of the arbitration protocol of `check_state` plus
the drain-worker lifecycle. Steps taken with the `STATE` lock held by one
submitter (observe-busy; spawn and store the handle; fall back to synchronous
draining) are single steps here because the lock serialises them: no other
thread can observe their intermediate states.
- `tryLockFail`: `STATE.try_lock()` fails, the submitter returns (no change);
- `observeBusy`: the lock is acquired, `is_busy` is true, the submitter
  releases and returns (no change);
- `spawnOk`: the lock is acquired, not busy, a worker thread is spawned,
  `Threaded(handle)` is stored, the lock is released and the worker enters
  the drain loop;
- `spawnFailSync`: the lock is acquired, not busy, spawning fails,
  `Synchronous` is stored, the lock is released and the submitter itself
  enters the drain loop;
- `threadFinish`: a threaded worker leaves the drain loop and its handle
  becomes finished;
- `syncFinish`: a synchronous drainer leaves the drain loop, reacquires the
  lock and stores `Idle`. -/
inductive ArbStep : ArbSys → ArbSys → Prop
  | tryLockFail (s : ArbSys) : s.lockHeld = true → ArbStep s s
  | observeBusy (s : ArbSys) :
      s.lockHeld = false → s.pstate.is_busy = true → ArbStep s s
  | spawnOk (s : ArbSys) :
      s.lockHeld = false → s.pstate.is_busy = false →
      ArbStep s ⟨false, PState.Threaded false, s.drainers + 1⟩
  | spawnFailSync (s : ArbSys) :
      s.lockHeld = false → s.pstate.is_busy = false →
      ArbStep s ⟨false, PState.Synchronous, s.drainers + 1⟩
  | threadFinish (s : ArbSys) :
      s.pstate = PState.Threaded false →
      ArbStep s ⟨s.lockHeld, PState.Threaded true, s.drainers - 1⟩
  | syncFinish (s : ArbSys) :
      s.lockHeld = false → s.pstate = PState.Synchronous →
      ArbStep s ⟨s.lockHeld, PState.Idle, s.drainers - 1⟩

/-- Initial arbitration state: `STATE` unlocked and `PrintingState::Idle`
(src/async_impl.rs line 15), no drainer active. -/
def arbInit : ArbSys := ⟨false, PState.Idle, 0⟩

/-- The single-flight invariant: at most one thread is inside the drain loop,
and when `is_busy` reads false no thread is inside it. -/
def ArbInv (s : ArbSys) : Prop :=
  s.drainers ≤ 1 ∧ (s.pstate.is_busy = false → s.drainers = 0)

/-- `usize::from_str` as used by `get_var::<usize>` in src/config/env_vars.rs:
an optional leading plus sign, then one or more ASCII digits, rejecting
values beyond `usize::MAX` (64-bit). -/
def parseUsize (s : String) : Option Nat :=
  let digits :=
    match s.data with
    | '+' :: tl => tl
    | other => other
  if digits.isEmpty then
    none
  else if digits.all Char.isDigit then
    let v := digits.foldl (fun acc c => acc * 10 + (c.toNat - 48)) 0
    if v < 2 ^ 64 then some v else none
  else
    none

/-- `bool::from_str` as used by `get_var::<bool>` in src/config/env_vars.rs. -/
def parseBoolStr (s : String) : Option Bool :=
  if s = "true" then some true
  else if s = "false" then some false
  else none

/-- `FromStr for On_QueuePrintingFail` from src/config/on_queue_printing_fail.rs. -/
def On_QueuePrintingFail.from_str (s : String) : Option On_QueuePrintingFail :=
  match s with
  | "0" | "TryUntilMaxRetries" => some On_QueuePrintingFail.TryUntilMaxRetries
  | "1" | "Return" => some On_QueuePrintingFail.Return
  | _ => none

/-- `FromStr for On_MaxRetriesReached` from src/config/on_max_retries_reached.rs. -/
def On_MaxRetriesReached.from_str (s : String) : Option On_MaxRetriesReached :=
  match s with
  | "0" | "Return" => some On_MaxRetriesReached.Return
  | "1" | "WriteToDisk" => some On_MaxRetriesReached.WriteToDisk
  | _ => none

/-- Modelled from the spec: `FromStr for On_QueueFull` (the source file
src/config/on_queue_full.rs is missing from the tree); accepts the two value
names the spec gives, with the numeric aliases used by the sibling enums. -/
def On_QueueFull.from_str (s : String) : Option On_QueueFull :=
  match s with
  | "0" | "KeepNewest" => some On_QueueFull.KeepNewest
  | "1" | "KeepOldest" => some On_QueueFull.KeepOldest
  | _ => none

/-- `ENV_NAME` of src/config/max_retries.rs. -/
def maxRetriesEnvName : String := "COMFY_PRINT_MAX_RETRIES"

/-- `ENV_NAME` of src/config/max_queue_length.rs. -/
def maxQueueLengthEnvName : String := "COMFY_PRINT_MAX_QUEUE_LENGTH"

/-- Modelled from the spec: `ENV_NAME` of the missing file
src/config/allow_logging_print_failures.rs, named after the sibling modules. -/
def allowLoggingEnvName : String := "COMFY_PRINT_ALLOW_LOGGING_PRINT_FAILURES"

/-- `ENV_NAME` of src/config/on_queue_printing_fail.rs. -/
def onQueuePrintingFailEnvName : String := "COMFY_PRINT_ON_QUEUE_PRINTING_FAIL"

/-- `ENV_NAME` of src/config/on_max_retries_reached.rs. -/
def onMaxRetriesReachedEnvName : String := "COMFY_PRINT_ON_MAX_RETRIES_REACHED"

/-- `ENV_NAME` of src/config/log_io_path.rs. -/
def diskLogPathEnvName : String := "COMFY_PRINT_DISK_LOG_PATH"

/-- Modelled from the spec: `ENV_NAME` of the missing file
src/config/on_queue_full.rs, named after the sibling modules. -/
def onQueueFullEnvName : String := "COMFY_PRINT_ON_QUEUE_FULL"

/-- `LoadVarError` from src/config/env_vars.rs, with the payloads flattened:
`varError` covers `VarError` (the variable is absent or not unicode),
`parseError` covers `ParseError(T::Err)`, and `ioError` carries the display
text of the `std::io::Error` returned by `log_io_path::set`. -/
inductive LoadVarError
  | varError
  | parseError
  | ioError (msg : String)
deriving DecidableEq

/-- The mutable configuration store: the global atomics of src/config/*
gathered into one record (the two missing modules are modelled from the spec
as a plain `Bool` and an `On_QueueFull` value). -/
structure ConfigStore where
  max_retries : Nat
  max_queue_length : Nat
  allow_logging_print_failures : Bool
  on_queue_printing_fail : On_QueuePrintingFail
  on_max_retries_reached : On_MaxRetriesReached
  on_queue_full : On_QueueFull
  log_io_path : String
deriving DecidableEq

/-- `LoadVarsResult` from src/config/env_vars.rs. -/
structure LoadVarsResult where
  max_retries : Except LoadVarError Nat
  max_queue_length : Except LoadVarError Nat
  allow_logging_print_failures : Except LoadVarError Bool
  on_retry_printing_fail : Except LoadVarError On_QueuePrintingFail
  on_max_retries_reached : Except LoadVarError On_MaxRetriesReached
  log_io_path : Except LoadVarError String
  on_push_queue_full : Except LoadVarError On_QueueFull

/-- Oracle for the filesystem operations of `log_io_path::set`
(src/config/log_io_path.rs lines 31-54): `Path::parent` (none for paths
without a parent), `Path::try_exists` on the parent directory, and
`std::fs::create_dir_all`; errors carry their display text. -/
structure FsEnv where
  parent : String → Option String
  tryExists : String → Except String Bool
  createDirAll : String → Except String Unit

/-- `log_io_path::set` from src/config/log_io_path.rs (lines 31-54): fail
with `InvalidInput` when the path has no parent; ensure the parent directory
exists (creating it when `try_exists` reports false); only then replace the
stored path. Returns the new stored value on success. -/
def log_io_path_set (fs : FsEnv) (new_value : String) : Except String String :=
  match fs.parent new_value with
  | none => Except.error ("Invalid path for DISK_LOG_PATH: " ++ new_value)
  | some dir =>
    match fs.tryExists dir with
    | Except.ok true => Except.ok new_value
    | Except.ok false =>
      match fs.createDirAll dir with
      | Except.ok _ => Except.ok new_value
      | Except.error err => Except.error err
    | Except.error err => Except.error err

/-- The nested `get_var::<T>` of `load_all` (src/config/env_vars.rs lines
84-93): absence of the environment variable becomes `VarError`, a present
value is parsed, with `ParseError` on failure. -/
def get_var {α : Type} (parse : String → Option α)
    (envMap : String → Option String) (name : String) :
    Except LoadVarError α :=
  match envMap name with
  | some value =>
    match parse value with
    | some v => Except.ok v
    | none => Except.error LoadVarError.parseError
  | none => Except.error LoadVarError.varError

/-- The per-variable store update of `load_all`: `.inspect(|v| set(*v))`
overwrites the stored value exactly when the load succeeded. -/
def applyLoaded {α : Type} (old : α) (r : Except LoadVarError α) : α :=
  match r with
  | Except.ok v => v
  | Except.error _ => old

/-- `load_all` from src/config/env_vars.rs (lines 43-93): for each tunable,
read its environment variable and parse it, storing the value on success; for
the disk-path variable, additionally run `log_io_path::set`, demoting its
result to `IOError` when the setter fails (leaving the store unchanged). -/
def load_all (envMap : String → Option String) (fs : FsEnv)
    (c : ConfigStore) : ConfigStore × LoadVarsResult :=
  let max_retries := get_var parseUsize envMap maxRetriesEnvName
  let max_queue_length := get_var parseUsize envMap maxQueueLengthEnvName
  let allow_logging := get_var parseBoolStr envMap allowLoggingEnvName
  let on_retry_printing_fail :=
    get_var On_QueuePrintingFail.from_str envMap onQueuePrintingFailEnvName
  let on_max_retries_reached :=
    get_var On_MaxRetriesReached.from_str envMap onMaxRetriesReachedEnvName
  let log_io_path_raw := get_var (fun s => some s) envMap diskLogPathEnvName
  let log_io_pair : Except LoadVarError String × String :=
    match log_io_path_raw with
    | Except.ok path =>
      match log_io_path_set fs path with
      | Except.ok v => (Except.ok path, v)
      | Except.error err => (Except.error (LoadVarError.ioError err), c.log_io_path)
    | Except.error err => (Except.error err, c.log_io_path)
  let on_push_queue_full := get_var On_QueueFull.from_str envMap onQueueFullEnvName
  (⟨applyLoaded c.max_retries max_retries,
    applyLoaded c.max_queue_length max_queue_length,
    applyLoaded c.allow_logging_print_failures allow_logging,
    applyLoaded c.on_queue_printing_fail on_retry_printing_fail,
    applyLoaded c.on_max_retries_reached on_max_retries_reached,
    applyLoaded c.on_queue_full on_push_queue_full,
    log_io_pair.2⟩,
   ⟨max_retries, max_queue_length, allow_logging, on_retry_printing_fail,
    on_max_retries_reached, log_io_pair.1, on_push_queue_full⟩)

/-! ### Step lemmas for the recursive functions -/

theorem pue_nil (cfg : Config) (env : Env) (mr r : Nat) (s : DrainState)
    (h : s.queue = []) : print_until_empty cfg env mr r s = s := by
  obtain ⟨q, w, d, t, dt⟩ := s
  simp only at h
  subst h
  unfold print_until_empty
  simp

theorem pue_success (cfg : Config) (env : Env) (mr r : Nat) (s : DrainState)
    (msg : Message) (rest : List Message)
    (hq : s.queue = msg :: rest) (hw : env.osWrite s.tick = true) :
    print_until_empty cfg env mr r s =
      print_until_empty cfg env mr r
        { s with queue := rest, written := s.written ++ [msg], tick := s.tick + 1 } := by
  obtain ⟨q, w, d, t, dt⟩ := s
  simp only at hq hw ⊢
  subst hq
  conv_lhs => unfold print_until_empty
  simp [hw]

theorem pue_fail_retry (cfg : Config) (env : Env) (mr r : Nat) (s : DrainState)
    (msg : Message) (rest : List Message)
    (hq : s.queue = msg :: rest) (hw : env.osWrite s.tick = false)
    (hp : cfg.on_queue_printing_fail = On_QueuePrintingFail.TryUntilMaxRetries)
    (hr : r < mr) :
    print_until_empty cfg env mr r s =
      print_until_empty cfg env mr (r + 1)
        { s with
            queue := reinsert_message cfg rest msg (env.errOf s.tick),
            tick := s.tick + 1 } := by
  obtain ⟨q, w, d, t, dt⟩ := s
  simp only at hq hw ⊢
  subst hq
  conv_lhs => unfold print_until_empty
  simp [hw, hp, hr]

theorem pue_fail_exhaust (cfg : Config) (env : Env) (mr r : Nat) (s : DrainState)
    (msg : Message) (rest : List Message)
    (hq : s.queue = msg :: rest) (hw : env.osWrite s.tick = false)
    (hp : cfg.on_queue_printing_fail = On_QueuePrintingFail.TryUntilMaxRetries)
    (hr : ¬ r < mr) :
    print_until_empty cfg env mr r s =
      on_max_retries cfg env
        { s with
            queue := reinsert_message cfg rest msg (env.errOf s.tick),
            tick := s.tick + 1 } := by
  obtain ⟨q, w, d, t, dt⟩ := s
  simp only at hq hw ⊢
  subst hq
  conv_lhs => unfold print_until_empty
  simp [hw, hp, hr]

theorem pue_fail_return (cfg : Config) (env : Env) (mr r : Nat) (s : DrainState)
    (msg : Message) (rest : List Message)
    (hq : s.queue = msg :: rest) (hw : env.osWrite s.tick = false)
    (hp : cfg.on_queue_printing_fail = On_QueuePrintingFail.Return) :
    print_until_empty cfg env mr r s =
      { s with
          queue := reinsert_message cfg rest msg (env.errOf s.tick),
          tick := s.tick + 1 } := by
  obtain ⟨q, w, d, t, dt⟩ := s
  simp only at hq hw ⊢
  subst hq
  conv_lhs => unfold print_until_empty
  simp [hw, hp]

theorem flush_nil (cfg : Config) (env : Env) (s : DrainState)
    (h : s.queue = []) : flush_loop cfg env s = s := by
  obtain ⟨q, w, d, t, dt⟩ := s
  simp only at h
  subst h
  unfold flush_loop
  simp

theorem flush_ok (cfg : Config) (env : Env) (s : DrainState)
    (msg : Message) (rest : List Message)
    (hq : s.queue = msg :: rest) (hw : env.diskWrite s.dtick = true) :
    flush_loop cfg env s =
      flush_loop cfg env
        { s with queue := rest, disk := s.disk ++ [msg], dtick := s.dtick + 1 } := by
  obtain ⟨q, w, d, t, dt⟩ := s
  simp only at hq hw ⊢
  subst hq
  conv_lhs => unfold flush_loop
  simp [hw]

theorem flush_fail (cfg : Config) (env : Env) (s : DrainState)
    (msg : Message) (rest : List Message)
    (hq : s.queue = msg :: rest) (hw : env.diskWrite s.dtick = false) :
    flush_loop cfg env s =
      { s with
          queue := owned_try_insert_write_err cfg s.queue (env.diskErrOf s.dtick) diskFailDesc,
          dtick := s.dtick + 1 } := by
  obtain ⟨q, w, d, t, dt⟩ := s
  simp only at hq hw ⊢
  subst hq
  conv_lhs => unfold flush_loop
  simp [hw]

/-! ### Shared helper lemmas -/

theorem owned_suffix (cfg : Config) (q : List Message) (err desc : String) :
    q <:+ owned_try_insert_write_err cfg q err desc := by
  by_cases h1 : cfg.allow_logging_print_failures = false
  · simp only [owned_try_insert_write_err, h1, if_true]
    exact List.suffix_refl q
  · by_cases h2 : q.length < cfg.max_queue_length
    · simp only [owned_try_insert_write_err, h1, h2, if_false, if_true]
      exact List.suffix_cons _ q
    · simp only [owned_try_insert_write_err, h1, h2, if_false]
      exact List.suffix_refl q

theorem owned_length_le (cfg : Config) (q : List Message) (err desc : String) :
    (owned_try_insert_write_err cfg q err desc).length ≤ q.length + 1 := by
  by_cases h1 : cfg.allow_logging_print_failures = false
  · simp [owned_try_insert_write_err, h1]
  · by_cases h2 : q.length < cfg.max_queue_length
    · simp [owned_try_insert_write_err, h1, h2]
    · simp [owned_try_insert_write_err, h1, h2]

theorem owned_length_bounded (cfg : Config) (q : List Message) (err desc : String)
    (h : q.length ≤ cfg.max_queue_length) :
    (owned_try_insert_write_err cfg q err desc).length ≤ cfg.max_queue_length := by
  by_cases h1 : cfg.allow_logging_print_failures = false
  · simp [owned_try_insert_write_err, h1]
    omega
  · by_cases h2 : q.length < cfg.max_queue_length
    · simp [owned_try_insert_write_err, h1, h2]
      omega
    · simp [owned_try_insert_write_err, h1, h2]
      omega

theorem owned_no_insert (cfg : Config) (q : List Message) (err desc : String)
    (h : ¬ q.length < cfg.max_queue_length) :
    owned_try_insert_write_err cfg q err desc = q := by
  by_cases h1 : cfg.allow_logging_print_failures = false
  · simp [owned_try_insert_write_err, h1]
  · simp [owned_try_insert_write_err, h1, h]

/-! ### C10 -/

/-- C10: synthetic diagnostic messages are inserted at the queue front, as
stderr messages with a trailing newline, only when
`allow_logging_print_failures` is true and the current queue length is
strictly below `max_queue_length`; recording one therefore never evicts an
existing queued message (the old queue survives as a suffix) and never raises
the queue length above `max_queue_length`; `try_insert_write_err` performs
exactly the body of `owned_try_insert_write_err`. -/
theorem C10_diagnostic_insert_gated (cfg : Config) (q : List Message)
    (err desc : String) :
    (cfg.allow_logging_print_failures = true → q.length < cfg.max_queue_length →
      owned_try_insert_write_err cfg q err desc = synthMsg err desc :: q ∧
      (owned_try_insert_write_err cfg q err desc).length ≤ cfg.max_queue_length) ∧
    ((cfg.allow_logging_print_failures = false ∨ ¬ q.length < cfg.max_queue_length) →
      owned_try_insert_write_err cfg q err desc = q) ∧
    try_insert_write_err cfg q err desc = owned_try_insert_write_err cfg q err desc ∧
    q <:+ owned_try_insert_write_err cfg q err desc ∧
    (synthMsg err desc).output = OutputKind.Stderr ∧
    (synthMsg err desc).should_append_line = true := by
  refine ⟨?_, ?_, rfl, owned_suffix cfg q err desc, rfl, rfl⟩
  · intro ha hl
    constructor
    · simp [owned_try_insert_write_err, ha, hl]
    · simp [owned_try_insert_write_err, ha, hl]
      omega
  · intro h
    rcases h with h | h
    · simp [owned_try_insert_write_err, h]
    · exact owned_no_insert cfg q err desc h

/-- Configuration used by witnesses: the defaults of src/config/*
(`max_retries = 64`, `max_queue_length = 1024`, diagnostics enabled). -/
def cfgDefault : Config :=
  ⟨64, 1024, On_QueueFull.KeepNewest, On_QueuePrintingFail.TryUntilMaxRetries,
   On_MaxRetriesReached.Return, true⟩

theorem C10_witness :
    owned_try_insert_write_err cfgDefault [] "e" "d" = [synthMsg "e" "d"] :=
  ((C10_diagnostic_insert_gated cfgDefault [] "e" "d").1 rfl (by decide)).1

/-! ### C1 -/

/-- Configuration for the C1 counterexample: capacity 1, `KeepNewest`,
diagnostics disabled. -/
def cfgC1 : Config :=
  ⟨64, 1, On_QueueFull.KeepNewest, On_QueuePrintingFail.TryUntilMaxRetries,
   On_MaxRetriesReached.Return, false⟩

/-- C1 counterexample: at capacity (`max_queue_length = 1`, queue `[a]`), the
reinsertion path under `KeepNewest` leaves the queue unchanged: the oldest
item is not evicted and the incoming (failed) message is not added, contrary
to the claim that at every insertion site `KeepNewest` evicts the oldest item
and adds the new one. -/
theorem C1_counterexample :
    reinsert_message cfgC1 [Message.standard "a"] (Message.standard "m") "e" =
      [Message.standard "a"] ∧
    Message.standard "m" ∉
      reinsert_message cfgC1 [Message.standard "a"] (Message.standard "m") "e" := by
  constructor
  · decide
  · decide

/-- C1 (amended): for every queue with length at most `max_queue_length`:
at the submission site (non-empty queue) the length stays at most
`max_queue_length`, below capacity the message is appended, and at capacity
`KeepNewest` evicts the oldest entry and appends while `KeepOldest` discards
the incoming message; at the reinsertion site, when `max_queue_length ≥ 1`
the length stays at most `max_queue_length`, below capacity the failed
message goes to the head, and at capacity `KeepNewest` discards the incoming
(failed) message while `KeepOldest` evicts the newest entry and reinserts the
failed message at the head. -/
theorem C1_amended_insertion_sites (cfg : Config) (q : List Message)
    (msg : Message) (err : String) :
    (q ≠ [] → q.length ≤ cfg.max_queue_length →
      (submit_enqueue cfg q msg).length ≤ cfg.max_queue_length ∧
      (q.length < cfg.max_queue_length → submit_enqueue cfg q msg = q ++ [msg]) ∧
      (q.length = cfg.max_queue_length →
        (cfg.on_queue_full = On_QueueFull.KeepNewest →
          submit_enqueue cfg q msg = q.tail ++ [msg]) ∧
        (cfg.on_queue_full = On_QueueFull.KeepOldest →
          submit_enqueue cfg q msg = q))) ∧
    (q.length ≤ cfg.max_queue_length → 1 ≤ cfg.max_queue_length →
      (reinsert_message cfg q msg err).length ≤ cfg.max_queue_length ∧
      (q.length < cfg.max_queue_length →
        msg :: q <:+ reinsert_message cfg q msg err) ∧
      (q.length = cfg.max_queue_length →
        (cfg.on_queue_full = On_QueueFull.KeepNewest →
          reinsert_message cfg q msg err = q) ∧
        (cfg.on_queue_full = On_QueueFull.KeepOldest →
          reinsert_message cfg q msg err = msg :: q.dropLast))) := by
  constructor
  · intro hne hlen
    refine ⟨?_, ?_, ?_⟩
    · by_cases hlt : q.length < cfg.max_queue_length
      · simp [submit_enqueue, hlt]
        omega
      · by_cases hkn : cfg.on_queue_full = On_QueueFull.KeepNewest
        · have hq : q.length = cfg.max_queue_length := by omega
          simp [submit_enqueue, hlt, hkn]
          have : q.tail.length = q.length - 1 := List.length_tail q
          have hpos : 0 < q.length := List.length_pos.mpr hne
          omega
        · simp [submit_enqueue, hlt, hkn]
          omega
    · intro hlt
      simp [submit_enqueue, hlt]
    · intro hcap
      constructor
      · intro hkn
        simp [submit_enqueue, hcap, hkn]
      · intro hko
        have hkn : ¬ cfg.on_queue_full = On_QueueFull.KeepNewest := by
          rw [hko]
          decide
        simp [submit_enqueue, hcap, hkn]
  · intro hlen hmax
    refine ⟨?_, ?_, ?_⟩
    · by_cases hlt : q.length < cfg.max_queue_length
      · have h1 : (msg :: q).length ≤ cfg.max_queue_length := by
          simp
          omega
        simp only [reinsert_message, hlt, if_true]
        exact owned_length_bounded cfg (msg :: q) err reinsertDesc h1
      · have hcap : q.length = cfg.max_queue_length := by omega
        cases hfull : cfg.on_queue_full with
        | KeepNewest =>
          simp only [reinsert_message, hlt, if_false, hfull]
          rw [owned_no_insert cfg q err reinsertDesc hlt]
          omega
        | KeepOldest =>
          simp only [reinsert_message, hlt, if_false, hfull]
          have hne : q ≠ [] := by
            intro h
            rw [h] at hcap
            simp at hcap
            omega
          have hlen2 : (msg :: q.dropLast).length = cfg.max_queue_length := by
            have := List.length_dropLast q
            have hpos : 0 < q.length := List.length_pos.mpr hne
            simp
            omega
          rw [owned_no_insert cfg _ err reinsertDesc (by omega)]
          omega
    · intro hlt
      simp only [reinsert_message, hlt, if_true]
      exact owned_suffix cfg (msg :: q) err reinsertDesc
    · intro hcap
      have hlt : ¬ q.length < cfg.max_queue_length := by omega
      constructor
      · intro hkn
        simp only [reinsert_message, hlt, if_false, hkn]
        exact owned_no_insert cfg q err reinsertDesc hlt
      · intro hko
        simp only [reinsert_message, hlt, if_false, hko]
        have hne : q ≠ [] := by
          intro h
          rw [h] at hcap
          simp at hcap
          omega
        have hlen2 : (msg :: q.dropLast).length = cfg.max_queue_length := by
          have := List.length_dropLast q
          have hpos : 0 < q.length := List.length_pos.mpr hne
          simp
          omega
        exact owned_no_insert cfg _ err reinsertDesc (by omega)

theorem C1_witness :
    (submit_enqueue cfgDefault [Message.standard "a"] (Message.standard "b")).length ≤
      cfgDefault.max_queue_length ∧
    (reinsert_message cfgDefault [Message.standard "a"] (Message.standard "b") "e").length ≤
      cfgDefault.max_queue_length :=
  ⟨((C1_amended_insertion_sites cfgDefault [Message.standard "a"]
      (Message.standard "b") "e").1 (by decide) (by decide)).1,
   ((C1_amended_insertion_sites cfgDefault [Message.standard "a"]
      (Message.standard "b") "e").2 (by decide) (by decide)).1⟩

/-! ### C2 -/

/-- Configuration for the C2 counterexample: `max_queue_length = 0`. -/
def cfgC2 : Config :=
  ⟨64, 0, On_QueueFull.KeepNewest, On_QueuePrintingFail.TryUntilMaxRetries,
   On_MaxRetriesReached.Return, true⟩

/-- Environment in which every OS stream write fails. -/
def envAllFail : Env :=
  ⟨fun _ => false, fun _ => "os error", true, "spawn error", false,
   fun _ => false, fun _ => "disk error"⟩

/-- The initial state: empty queue, nothing written anywhere. -/
def s0 : DrainState := ⟨[], [], [], 0, 0⟩

/-- C2 counterexample: with `max_queue_length = 0` and a failing fast-path
write, `comfy_print_async` returns with the message neither written to its
stream nor placed in the queue — it is lost, contrary to the claim. -/
theorem C2_counterexample :
    (comfy_print_async cfgC2 envAllFail s0 (Message.standard "m")).written = [] ∧
    (comfy_print_async cfgC2 envAllFail s0 (Message.standard "m")).queue = [] := by
  constructor
  · decide
  · decide

/-- C2 (amended): `comfy_print_async` always returns normally (it is a total
function of the submission state), and the submitted message is either
written to its stream or placed in the queue, except that it is discarded
when the fast-path write fails with `max_queue_length = 0`, and when the
queue is at capacity under `KeepOldest`: a successful fast-path write
delivers the message; a failed fast-path write with `max_queue_length ≥ 1`
places the message in the queue handed to the drain arbitration; a non-empty
queue below capacity enqueues it, and at capacity `KeepNewest` still
enqueues it (evicting the oldest) while `KeepOldest` discards it. -/
theorem C2_amended_disposition (cfg : Config) (env : Env) (s : DrainState)
    (q : List Message) (msg : Message) (err : String) :
    (msg ∈ fast_fail_enqueue cfg q msg err) ∧
    (q.length < cfg.max_queue_length → msg ∈ submit_enqueue cfg q msg) ∧
    (cfg.max_queue_length ≤ q.length →
      cfg.on_queue_full = On_QueueFull.KeepNewest → msg ∈ submit_enqueue cfg q msg) ∧
    (cfg.max_queue_length ≤ q.length →
      cfg.on_queue_full = On_QueueFull.KeepOldest → 0 < q.length →
      submit_enqueue cfg q msg = q) ∧
    (s.queue = [] → env.osWrite s.tick = true →
      comfy_print_async cfg env s msg =
        { s with written := s.written ++ [msg], tick := s.tick + 1 }) ∧
    (s.queue = [] → env.osWrite s.tick = false → cfg.max_queue_length = 0 →
      comfy_print_async cfg env s msg = { s with tick := s.tick + 1 }) ∧
    (s.queue = [] → env.osWrite s.tick = false → cfg.max_queue_length ≠ 0 →
      comfy_print_async cfg env s msg =
        check_state cfg env
          { s with
              queue := fast_fail_enqueue cfg s.queue msg (env.errOf s.tick),
              tick := s.tick + 1 }) := by
  refine ⟨?_, ?_, ?_, ?_, ?_, ?_, ?_⟩
  · have hsuf := owned_suffix cfg (msg :: q) err fastFailDesc
    exact hsuf.subset (List.mem_cons_self msg q)
  · intro hlt
    simp [submit_enqueue, hlt]
  · intro hge hkn
    have hlt : ¬ q.length < cfg.max_queue_length := by omega
    simp [submit_enqueue, hlt, hkn]
  · intro hge hko hpos
    have hlt : ¬ q.length < cfg.max_queue_length := by omega
    have hkn : ¬ cfg.on_queue_full = On_QueueFull.KeepNewest := by
      rw [hko]
      decide
    simp [submit_enqueue, hlt, hkn]
  · intro hq hw
    simp [comfy_print_async, hq, hw]
  · intro hq hw hm
    simp [comfy_print_async, hq, hw, hm]
  · intro hq hw hm
    simp [comfy_print_async, hq, hw, hm]

theorem C2_witness :
    Message.standard "b" ∈
      fast_fail_enqueue cfgDefault [] (Message.standard "b") "e" ∧
    Message.standard "b" ∈
      submit_enqueue cfgDefault [Message.standard "a"] (Message.standard "b") :=
  ⟨(C2_amended_disposition cfgDefault envAllFail s0 [] (Message.standard "b") "e").1,
   (C2_amended_disposition cfgDefault envAllFail s0 [Message.standard "a"]
      (Message.standard "b") "e").2.1 (by decide)⟩

/-! ### C3 -/

/-- C3: in `print_until_empty`, a successful write continues draining with
the retry counter unchanged; a failed write under `TryUntilMaxRetries`
reinserts the message and recurses with the counter incremented while
`retries < max_retries`, and invokes the exhaustion handler exactly when the
counter has reached `max_retries`. -/
theorem C3_drain_step_behavior (cfg : Config) (env : Env) (mr r : Nat)
    (s : DrainState) (msg : Message) (rest : List Message)
    (hq : s.queue = msg :: rest) :
    (env.osWrite s.tick = true →
      print_until_empty cfg env mr r s =
        print_until_empty cfg env mr r
          { s with queue := rest, written := s.written ++ [msg], tick := s.tick + 1 }) ∧
    (env.osWrite s.tick = false →
      cfg.on_queue_printing_fail = On_QueuePrintingFail.TryUntilMaxRetries →
      (r < mr →
        print_until_empty cfg env mr r s =
          print_until_empty cfg env mr (r + 1)
            { s with
                queue := reinsert_message cfg rest msg (env.errOf s.tick),
                tick := s.tick + 1 }) ∧
      (r = mr →
        print_until_empty cfg env mr r s =
          on_max_retries cfg env
            { s with
                queue := reinsert_message cfg rest msg (env.errOf s.tick),
                tick := s.tick + 1 })) := by
  constructor
  · intro hw
    exact pue_success cfg env mr r s msg rest hq hw
  · intro hw hp
    constructor
    · intro hr
      exact pue_fail_retry cfg env mr r s msg rest hq hw hp hr
    · intro hr
      exact pue_fail_exhaust cfg env mr r s msg rest hq hw hp (by omega)

/-- Environment in which every OS stream write succeeds. -/
def envAllOk : Env :=
  ⟨fun _ => true, fun _ => "os error", true, "spawn error", true,
   fun _ => true, fun _ => "disk error"⟩

/-- A one-message starting state for witnesses. -/
def s1m : DrainState := ⟨[Message.standard "m"], [], [], 0, 0⟩

theorem C3_witness :
    print_until_empty cfgDefault envAllOk 64 0 s1m =
      print_until_empty cfgDefault envAllOk 64 0
        ⟨[], [Message.standard "m"], [], 1, 0⟩ :=
  (C3_drain_step_behavior cfgDefault envAllOk 64 0 s1m
    (Message.standard "m") [] rfl).1 rfl

/-! ### C4 -/

theorem submit_all_ok_aux (cfg : Config) (env : Env)
    (hw : ∀ n, env.osWrite n = true) :
    ∀ (msgs : List Message) (s : DrainState), s.queue = [] →
      (submit_all cfg env s msgs).queue = [] ∧
      (submit_all cfg env s msgs).written = s.written ++ msgs := by
  intro msgs
  induction msgs with
  | nil =>
    intro s hq
    simp [submit_all, hq]
  | cons m rest ih =>
    intro s hq
    have hstep : comfy_print_async cfg env s m =
        { s with written := s.written ++ [m], tick := s.tick + 1 } := by
      simp [comfy_print_async, hq, hw s.tick]
    have hfold : submit_all cfg env s (m :: rest) =
        submit_all cfg env { s with written := s.written ++ [m], tick := s.tick + 1 } rest := by
      simp [submit_all, hstep]
    rw [hfold]
    have := ih { s with written := s.written ++ [m], tick := s.tick + 1 } hq
    refine ⟨this.1, ?_⟩
    rw [this.2]
    simp

/-- C4: FIFO per stream — starting from an empty queue, with every OS write
succeeding, submitting a sequence of messages leaves the queue empty and
appends exactly that sequence to the written history; in particular, for
messages all destined to the same stream, the sequence written to that
stream equals the submission sequence. -/
theorem C4_fifo_per_stream (cfg : Config) (env : Env) (s : DrainState)
    (msgs : List Message) (k : OutputKind)
    (hq : s.queue = []) (hw : ∀ n, env.osWrite n = true) :
    (submit_all cfg env s msgs).queue = [] ∧
    (submit_all cfg env s msgs).written = s.written ++ msgs ∧
    ((∀ m ∈ msgs, m.output = k) →
      (submit_all cfg env s msgs).written.filter (fun m => decide (m.output = k)) =
        s.written.filter (fun m => decide (m.output = k)) ++ msgs) := by
  obtain ⟨h1, h2⟩ := submit_all_ok_aux cfg env hw msgs s hq
  refine ⟨h1, h2, ?_⟩
  intro hk
  rw [h2, List.filter_append]
  congr 1
  apply List.filter_eq_self.mpr
  intro m hm
  simp [hk m hm]

theorem C4_witness :
    (submit_all cfgDefault envAllOk s0
      [Message.standard "a", Message.standard "b"]).written =
      [Message.standard "a", Message.standard "b"] :=
  (C4_fifo_per_stream cfgDefault envAllOk s0
    [Message.standard "a", Message.standard "b"] OutputKind.Stdout rfl
    (fun _ => rfl)).2.1

/-! ### C7 -/

theorem arbStep_preserves_inv (s t : ArbSys) (h : ArbInv s)
    (hst : ArbStep s t) : ArbInv t := by
  obtain ⟨hle, hidle⟩ := h
  cases hst with
  | tryLockFail hl => exact ⟨hle, hidle⟩
  | observeBusy hl hb => exact ⟨hle, hidle⟩
  | spawnOk hl hb =>
    have h0 : s.drainers = 0 := hidle hb
    refine ⟨?_, ?_⟩
    · show s.drainers + 1 ≤ 1
      omega
    · intro hbusy
      simp [PState.is_busy] at hbusy
  | spawnFailSync hl hb =>
    have h0 : s.drainers = 0 := hidle hb
    refine ⟨?_, ?_⟩
    · show s.drainers + 1 ≤ 1
      omega
    · intro hbusy
      simp [PState.is_busy] at hbusy
  | threadFinish hp =>
    refine ⟨?_, ?_⟩
    · show s.drainers - 1 ≤ 1
      omega
    · intro _
      show s.drainers - 1 = 0
      omega
  | syncFinish hl hp =>
    refine ⟨?_, ?_⟩
    · show s.drainers - 1 ≤ 1
      omega
    · intro _
      show s.drainers - 1 = 0
      omega

/-- C7: single-flight drain — in every arbitration state reachable from the
initial state (lock free, `PrintingState::Idle`, no active drainer) through
the `check_state` protocol and worker lifecycle, at most one thread is inside
the drain loop, and whenever `is_busy` reads false no thread is inside it; a
submitter that finds the state lock held (`tryLockFail`) or the state busy
(`observeBusy`) leaves the state unchanged, starting no second drainer. -/
theorem C7_single_flight (s : ArbSys)
    (h : Relation.ReflTransGen ArbStep arbInit s) :
    s.drainers ≤ 1 ∧ (s.pstate.is_busy = false → s.drainers = 0) := by
  induction h with
  | refl => exact ⟨by simp [arbInit], fun _ => by simp [arbInit]⟩
  | tail hab hbc ih => exact arbStep_preserves_inv _ _ ih hbc

theorem C7_witness : arbInit.drainers ≤ 1 :=
  (C7_single_flight arbInit Relation.ReflTransGen.refl).1

/-! ### C5 -/

theorem flush_all_ok (cfg : Config) (env : Env)
    (hd : ∀ n, env.diskWrite n = true) :
    ∀ (q : List Message) (s : DrainState), s.queue = q →
      flush_loop cfg env s =
        { s with queue := [], disk := s.disk ++ q, dtick := s.dtick + q.length } := by
  intro q
  induction q with
  | nil =>
    intro s hs
    rw [flush_nil cfg env s hs]
    obtain ⟨sq, w, d, t, dt⟩ := s
    simp only at hs
    subst hs
    simp
  | cons m rest ih =>
    intro s hs
    rw [flush_ok cfg env s m rest hs (hd s.dtick)]
    rw [ih _ rfl]
    simp
    omega

/-- C5: exhaustion drains to disk — with `max_retries = 0`, the default
`TryUntilMaxRetries` failure policy, `on_max_retries_reached = WriteToDisk`,
every OS stream write failing, the log file opening successfully, every disk
write succeeding, and the queue within capacity, a drain ends with the queue
empty, and the disk file extends the old content by the queued messages in
queue order (possibly interleaved with one synthetic diagnostic). -/
theorem C5_exhaustion_drains_to_disk (cfg : Config) (env : Env) (s : DrainState)
    (hp : cfg.on_queue_printing_fail = On_QueuePrintingFail.TryUntilMaxRetries)
    (hm : cfg.on_max_retries_reached = On_MaxRetriesReached.WriteToDisk)
    (hw : ∀ n, env.osWrite n = false)
    (ho : env.diskOpen = true)
    (hd : ∀ n, env.diskWrite n = true)
    (hlen : s.queue.length ≤ cfg.max_queue_length) :
    (print_until_empty cfg env 0 0 s).queue = [] ∧
    List.Sublist (s.disk ++ s.queue) (print_until_empty cfg env 0 0 s).disk := by
  cases hq : s.queue with
  | nil =>
    rw [pue_nil cfg env 0 0 s hq]
    exact ⟨hq, by simp [hq]⟩
  | cons m rest =>
    rw [pue_fail_exhaust cfg env 0 0 s m rest hq (hw s.tick) hp (by omega)]
    unfold on_max_retries
    rw [hm]
    simp only [ho, if_true]
    rw [flush_all_ok cfg env hd _ _ rfl]
    refine ⟨rfl, ?_⟩
    simp only [hq]
    show List.Sublist (s.disk ++ (m :: rest))
      (s.disk ++ reinsert_message cfg rest m (env.errOf s.tick))
    apply List.Sublist.append_left
    have hrest : rest.length < cfg.max_queue_length := by
      rw [hq] at hlen
      simp at hlen
      omega
    have : reinsert_message cfg rest m (env.errOf s.tick) =
        owned_try_insert_write_err cfg (m :: rest) (env.errOf s.tick) reinsertDesc := by
      simp [reinsert_message, hrest]
    rw [this]
    exact (owned_suffix cfg (m :: rest) (env.errOf s.tick) reinsertDesc).sublist

/-- Configuration for the C5 witness: `max_retries = 0`, `WriteToDisk`. -/
def cfgC5 : Config :=
  ⟨0, 1024, On_QueueFull.KeepNewest, On_QueuePrintingFail.TryUntilMaxRetries,
   On_MaxRetriesReached.WriteToDisk, true⟩

/-- Environment for the C5 witness: stream writes fail permanently, the log
file opens, disk writes succeed. -/
def envC5 : Env :=
  ⟨fun _ => false, fun _ => "os error", true, "spawn error", true,
   fun _ => true, fun _ => "disk error"⟩

theorem C5_witness :
    (print_until_empty cfgC5 envC5 0 0 s1m).queue = [] :=
  (C5_exhaustion_drains_to_disk cfgC5 envC5 s1m rfl rfl (fun _ => rfl) rfl
    (fun _ => rfl) (by decide)).1

/-! ### C6 -/

theorem flush_until_fail (cfg : Config) (env : Env) :
    ∀ (k : Nat) (s : DrainState), k < s.queue.length →
      (∀ i, i < k → env.diskWrite (s.dtick + i) = true) →
      env.diskWrite (s.dtick + k) = false →
      flush_loop cfg env s =
        { s with
            queue := owned_try_insert_write_err cfg (s.queue.drop k)
              (env.diskErrOf (s.dtick + k)) diskFailDesc,
            disk := s.disk ++ s.queue.take k,
            dtick := s.dtick + k + 1 } := by
  intro k
  induction k with
  | zero =>
    intro s hk _ hfail
    cases hq : s.queue with
    | nil =>
      rw [hq] at hk
      simp at hk
    | cons m rest =>
      rw [flush_fail cfg env s m rest hq (by simpa using hfail)]
      simp [hq]
  | succ k ih =>
    intro s hk hsucc hfail
    cases hq : s.queue with
    | nil =>
      rw [hq] at hk
      simp at hk
    | cons m rest =>
      rw [flush_ok cfg env s m rest hq (by simpa using hsucc 0 (by omega))]
      rw [ih { s with queue := rest, disk := s.disk ++ [m], dtick := s.dtick + 1 }
        (by simp; rw [hq] at hk; simp at hk; omega)
        (by intro i hi; simpa [Nat.add_assoc, Nat.add_comm 1 i] using hsucc (i + 1) (by omega))
        (by simpa [Nat.add_assoc, Nat.add_comm 1 k] using hfail)]
      have harith : s.dtick + 1 + k = s.dtick + (k + 1) := by omega
      simp [hq, harith]

/-- Configuration for the C6 counterexample: diagnostics disabled. -/
def cfgC6 : Config :=
  ⟨0, 5, On_QueueFull.KeepNewest, On_QueuePrintingFail.TryUntilMaxRetries,
   On_MaxRetriesReached.WriteToDisk, false⟩

/-- Environment for the C6 counterexample: disk writes fail. -/
def envC6 : Env :=
  ⟨fun _ => false, fun _ => "os error", true, "spawn error", true,
   fun _ => false, fun _ => "disk error"⟩

/-- C6 counterexample: with `allow_logging_print_failures = false`, a disk
write failure during the flush records no synthetic error message — the queue
after the halted flush is exactly the original queue, with no stderr
diagnostic in it, contrary to the claim that one is recorded. -/
theorem C6_counterexample :
    flush_loop cfgC6 envC6 ⟨[Message.standard "a"], [], [], 0, 0⟩ =
      ⟨[Message.standard "a"], [], [], 0, 1⟩ := by
  rw [flush_fail cfgC6 envC6 _ (Message.standard "a") [] rfl rfl]
  decide

/-- C6 (amended): if the disk write fails at position `k` of the
`WriteToDisk` flush (after `k` successful appends), the flush stops: exactly
the first `k` messages are appended to the file, every not-yet-flushed
message remains in the queue (as a suffix), and a synthetic error message is
recorded at the queue front exactly when `allow_logging_print_failures` is
true and the remaining queue is below `max_queue_length`; the failure is not
propagated (the flush returns a state). -/
theorem C6_amended_disk_fail_mid_flush (cfg : Config) (env : Env)
    (k : Nat) (s : DrainState) (hk : k < s.queue.length)
    (hsucc : ∀ i, i < k → env.diskWrite (s.dtick + i) = true)
    (hfail : env.diskWrite (s.dtick + k) = false) :
    (flush_loop cfg env s).disk = s.disk ++ s.queue.take k ∧
    s.queue.drop k <:+ (flush_loop cfg env s).queue ∧
    (cfg.allow_logging_print_failures = true →
      (s.queue.drop k).length < cfg.max_queue_length →
      (flush_loop cfg env s).queue =
        synthMsg (env.diskErrOf (s.dtick + k)) diskFailDesc :: s.queue.drop k) ∧
    ((cfg.allow_logging_print_failures = false ∨
        ¬ (s.queue.drop k).length < cfg.max_queue_length) →
      (flush_loop cfg env s).queue = s.queue.drop k) := by
  rw [flush_until_fail cfg env k s hk hsucc hfail]
  refine ⟨rfl, ?_, ?_, ?_⟩
  · exact owned_suffix cfg (s.queue.drop k) (env.diskErrOf (s.dtick + k)) diskFailDesc
  · intro ha hl
    show owned_try_insert_write_err cfg (s.queue.drop k)
        (env.diskErrOf (s.dtick + k)) diskFailDesc = _
    have hl2 : s.queue.length - k < cfg.max_queue_length := by
      simpa using hl
    simp [owned_try_insert_write_err, ha, hl2]
  · intro h
    show owned_try_insert_write_err cfg (s.queue.drop k)
        (env.diskErrOf (s.dtick + k)) diskFailDesc = _
    rcases h with h | h
    · simp [owned_try_insert_write_err, h]
    · exact owned_no_insert cfg _ _ _ h

theorem C6_witness :
    (flush_loop cfgC6 envC6 ⟨[Message.standard "a", Message.standard "b"], [], [], 0, 0⟩).queue =
      [Message.standard "a", Message.standard "b"] :=
  (C6_amended_disk_fail_mid_flush cfgC6 envC6 0
      ⟨[Message.standard "a", Message.standard "b"], [], [], 0, 0⟩
      (by decide) (fun i hi => by omega) rfl).2.2.2 (Or.inl rfl)

/-! ### C8 -/

theorem reinsert_length_le (cfg : Config) (q : List Message) (msg : Message)
    (err : String) :
    (reinsert_message cfg q msg err).length ≤
      max (max q.length cfg.max_queue_length) 1 := by
  by_cases hlt : q.length < cfg.max_queue_length
  · have h1 : (msg :: q).length ≤ cfg.max_queue_length := by
      simp
      omega
    have := owned_length_bounded cfg (msg :: q) err reinsertDesc h1
    simp only [reinsert_message, hlt, if_true]
    omega
  · cases hfull : cfg.on_queue_full with
    | KeepNewest =>
      simp only [reinsert_message, hlt, if_false, hfull]
      rw [owned_no_insert cfg q err reinsertDesc hlt]
      omega
    | KeepOldest =>
      simp only [reinsert_message, hlt, if_false, hfull]
      have hlen1 : (msg :: q.dropLast).length = q.length - 1 + 1 := by
        simp [List.length_dropLast]
      by_cases h2 : (msg :: q.dropLast).length < cfg.max_queue_length
      · have := owned_length_le cfg (msg :: q.dropLast) err reinsertDesc
        omega
      · rw [owned_no_insert cfg _ err reinsertDesc h2]
        omega

/-- C8: the drain loop terminates — for every initial state, retry budget and
policy configuration (no concurrent submitters), the fuelled drain loop,
which returns `none` when its step budget runs out, reaches the same return
as `print_until_empty` within a fuel bound computed from the retry budget and
the queue length: the recursion depth is bounded. -/
theorem C8_drain_recursion_bounded (cfg : Config) (env : Env) :
    ∀ (fuel mr r : Nat) (s : DrainState) (M : Nat),
      s.queue.length ≤ M → cfg.max_queue_length < M →
      (mr + 1 - r) * (M + 2) + s.queue.length + 1 ≤ fuel →
      print_until_empty_fuel cfg env fuel mr r s =
        some (print_until_empty cfg env mr r s) := by
  intro fuel
  induction fuel with
  | zero =>
    intro mr r s M h1 h2 h3
    exfalso
    generalize (mr + 1 - r) * (M + 2) = p at h3
    omega
  | succ fuel ih =>
    intro mr r s M h1 h2 h3
    cases hq : s.queue with
    | nil =>
      rw [pue_nil cfg env mr r s hq]
      simp [print_until_empty_fuel, hq]
    | cons m rest =>
      have hrle : rest.length ≤ M := by
        rw [hq] at h1
        simp at h1
        omega
      by_cases hw : env.osWrite s.tick = true
      · rw [pue_success cfg env mr r s m rest hq hw]
        have hunf : print_until_empty_fuel cfg env (fuel + 1) mr r s =
            print_until_empty_fuel cfg env fuel mr r
              { s with queue := rest, written := s.written ++ [m], tick := s.tick + 1 } := by
          simp [print_until_empty_fuel, hq, hw]
        rw [hunf]
        apply ih
        · show rest.length ≤ M
          exact hrle
        · exact h2
        · show (mr + 1 - r) * (M + 2) + rest.length + 1 ≤ fuel
          rw [hq] at h3
          simp only [List.length_cons] at h3
          generalize (mr + 1 - r) * (M + 2) = p at *
          omega
      · have hwf : env.osWrite s.tick = false := by
          simpa using hw
        cases hp : cfg.on_queue_printing_fail with
        | Return =>
          rw [pue_fail_return cfg env mr r s m rest hq hwf hp]
          simp [print_until_empty_fuel, hq, hwf, hp]
        | TryUntilMaxRetries =>
          by_cases hr : r < mr
          · rw [pue_fail_retry cfg env mr r s m rest hq hwf hp hr]
            have hunf : print_until_empty_fuel cfg env (fuel + 1) mr r s =
                print_until_empty_fuel cfg env fuel mr (r + 1)
                  { s with
                      queue := reinsert_message cfg rest m (env.errOf s.tick),
                      tick := s.tick + 1 } := by
              simp [print_until_empty_fuel, hq, hwf, hp, hr]
            rw [hunf]
            have hb := reinsert_length_le cfg rest m (env.errOf s.tick)
            apply ih
            · show (reinsert_message cfg rest m (env.errOf s.tick)).length ≤ M
              omega
            · exact h2
            · show (mr + 1 - (r + 1)) * (M + 2) +
                (reinsert_message cfg rest m (env.errOf s.tick)).length + 1 ≤ fuel
              have hexp : (mr + 1 - r) * (M + 2) =
                  (mr + 1 - (r + 1)) * (M + 2) + (M + 2) := by
                have hstep : mr + 1 - r = (mr + 1 - (r + 1)) + 1 := by omega
                rw [hstep]
                ring
              rw [hq] at h3
              simp only [List.length_cons] at h3
              rw [hexp] at h3
              generalize (mr + 1 - (r + 1)) * (M + 2) = p at *
              omega
          · rw [pue_fail_exhaust cfg env mr r s m rest hq hwf hp hr]
            simp [print_until_empty_fuel, hq, hwf, hp, hr]

theorem C8_witness :
    print_until_empty_fuel cfgDefault envAllOk 66757 64 0 s1m =
      some (print_until_empty cfgDefault envAllOk 64 0 s1m) :=
  C8_drain_recursion_bounded cfgDefault envAllOk 66757 64 0 s1m 1025
    (by decide) (by decide) (by decide)

/-! ### C9 -/

theorem getvar_triple {α : Type} (parse : String → Option α)
    (envMap : String → Option String) (name : String) (old : α) :
    (envMap name = none →
      applyLoaded old (get_var parse envMap name) = old ∧
      get_var parse envMap name = Except.error LoadVarError.varError) ∧
    (∀ v, envMap name = some v → parse v = none →
      applyLoaded old (get_var parse envMap name) = old ∧
      get_var parse envMap name = Except.error LoadVarError.parseError) ∧
    (∀ v x, envMap name = some v → parse v = some x →
      applyLoaded old (get_var parse envMap name) = x ∧
      get_var parse envMap name = Except.ok x) := by
  refine ⟨?_, ?_, ?_⟩
  · intro h
    simp [get_var, applyLoaded, h]
  · intro v hv hp
    simp [get_var, applyLoaded, hv, hp]
  · intro v x hv hp
    simp [get_var, applyLoaded, hv, hp]

/-- C9: the bulk environment loader overwrites each stored configuration
value exactly when its environment variable is present and parses
successfully (and, for the disk-path variable, when the setter's directory
handling also succeeds); in every other case the stored value is unchanged
and the per-variable result reports the absence (`varError`), the parse
error, or the I/O error. -/
theorem C9_load_all_frame (envMap : String → Option String) (fs : FsEnv)
    (c : ConfigStore) :
    ((envMap maxRetriesEnvName = none →
        (load_all envMap fs c).1.max_retries = c.max_retries ∧
        (load_all envMap fs c).2.max_retries = Except.error LoadVarError.varError) ∧
     (∀ v, envMap maxRetriesEnvName = some v → parseUsize v = none →
        (load_all envMap fs c).1.max_retries = c.max_retries ∧
        (load_all envMap fs c).2.max_retries = Except.error LoadVarError.parseError) ∧
     (∀ v x, envMap maxRetriesEnvName = some v → parseUsize v = some x →
        (load_all envMap fs c).1.max_retries = x ∧
        (load_all envMap fs c).2.max_retries = Except.ok x)) ∧
    ((envMap maxQueueLengthEnvName = none →
        (load_all envMap fs c).1.max_queue_length = c.max_queue_length ∧
        (load_all envMap fs c).2.max_queue_length = Except.error LoadVarError.varError) ∧
     (∀ v, envMap maxQueueLengthEnvName = some v → parseUsize v = none →
        (load_all envMap fs c).1.max_queue_length = c.max_queue_length ∧
        (load_all envMap fs c).2.max_queue_length = Except.error LoadVarError.parseError) ∧
     (∀ v x, envMap maxQueueLengthEnvName = some v → parseUsize v = some x →
        (load_all envMap fs c).1.max_queue_length = x ∧
        (load_all envMap fs c).2.max_queue_length = Except.ok x)) ∧
    ((envMap allowLoggingEnvName = none →
        (load_all envMap fs c).1.allow_logging_print_failures = c.allow_logging_print_failures ∧
        (load_all envMap fs c).2.allow_logging_print_failures = Except.error LoadVarError.varError) ∧
     (∀ v, envMap allowLoggingEnvName = some v → parseBoolStr v = none →
        (load_all envMap fs c).1.allow_logging_print_failures = c.allow_logging_print_failures ∧
        (load_all envMap fs c).2.allow_logging_print_failures = Except.error LoadVarError.parseError) ∧
     (∀ v x, envMap allowLoggingEnvName = some v → parseBoolStr v = some x →
        (load_all envMap fs c).1.allow_logging_print_failures = x ∧
        (load_all envMap fs c).2.allow_logging_print_failures = Except.ok x)) ∧
    ((envMap onQueuePrintingFailEnvName = none →
        (load_all envMap fs c).1.on_queue_printing_fail = c.on_queue_printing_fail ∧
        (load_all envMap fs c).2.on_retry_printing_fail = Except.error LoadVarError.varError) ∧
     (∀ v, envMap onQueuePrintingFailEnvName = some v → On_QueuePrintingFail.from_str v = none →
        (load_all envMap fs c).1.on_queue_printing_fail = c.on_queue_printing_fail ∧
        (load_all envMap fs c).2.on_retry_printing_fail = Except.error LoadVarError.parseError) ∧
     (∀ v x, envMap onQueuePrintingFailEnvName = some v → On_QueuePrintingFail.from_str v = some x →
        (load_all envMap fs c).1.on_queue_printing_fail = x ∧
        (load_all envMap fs c).2.on_retry_printing_fail = Except.ok x)) ∧
    ((envMap onMaxRetriesReachedEnvName = none →
        (load_all envMap fs c).1.on_max_retries_reached = c.on_max_retries_reached ∧
        (load_all envMap fs c).2.on_max_retries_reached = Except.error LoadVarError.varError) ∧
     (∀ v, envMap onMaxRetriesReachedEnvName = some v → On_MaxRetriesReached.from_str v = none →
        (load_all envMap fs c).1.on_max_retries_reached = c.on_max_retries_reached ∧
        (load_all envMap fs c).2.on_max_retries_reached = Except.error LoadVarError.parseError) ∧
     (∀ v x, envMap onMaxRetriesReachedEnvName = some v → On_MaxRetriesReached.from_str v = some x →
        (load_all envMap fs c).1.on_max_retries_reached = x ∧
        (load_all envMap fs c).2.on_max_retries_reached = Except.ok x)) ∧
    ((envMap onQueueFullEnvName = none →
        (load_all envMap fs c).1.on_queue_full = c.on_queue_full ∧
        (load_all envMap fs c).2.on_push_queue_full = Except.error LoadVarError.varError) ∧
     (∀ v, envMap onQueueFullEnvName = some v → On_QueueFull.from_str v = none →
        (load_all envMap fs c).1.on_queue_full = c.on_queue_full ∧
        (load_all envMap fs c).2.on_push_queue_full = Except.error LoadVarError.parseError) ∧
     (∀ v x, envMap onQueueFullEnvName = some v → On_QueueFull.from_str v = some x →
        (load_all envMap fs c).1.on_queue_full = x ∧
        (load_all envMap fs c).2.on_push_queue_full = Except.ok x)) ∧
    ((envMap diskLogPathEnvName = none →
        (load_all envMap fs c).1.log_io_path = c.log_io_path ∧
        (load_all envMap fs c).2.log_io_path = Except.error LoadVarError.varError) ∧
     (∀ v e, envMap diskLogPathEnvName = some v → log_io_path_set fs v = Except.error e →
        (load_all envMap fs c).1.log_io_path = c.log_io_path ∧
        (load_all envMap fs c).2.log_io_path = Except.error (LoadVarError.ioError e)) ∧
     (∀ v x, envMap diskLogPathEnvName = some v → log_io_path_set fs v = Except.ok x →
        (load_all envMap fs c).1.log_io_path = x ∧
        (load_all envMap fs c).2.log_io_path = Except.ok v)) := by
  refine ⟨?_, ?_, ?_, ?_, ?_, ?_, ?_, ?_, ?_⟩
  · exact getvar_triple parseUsize envMap maxRetriesEnvName c.max_retries
  · exact getvar_triple parseUsize envMap maxQueueLengthEnvName c.max_queue_length
  · exact getvar_triple parseBoolStr envMap allowLoggingEnvName c.allow_logging_print_failures
  · exact getvar_triple On_QueuePrintingFail.from_str envMap onQueuePrintingFailEnvName
      c.on_queue_printing_fail
  · exact getvar_triple On_MaxRetriesReached.from_str envMap onMaxRetriesReachedEnvName
      c.on_max_retries_reached
  · exact getvar_triple On_QueueFull.from_str envMap onQueueFullEnvName c.on_queue_full
  · intro h
    simp [load_all, get_var, h]
  · intro v e hv hset
    simp [load_all, get_var, hv, hset]
  · intro v x hv hset
    simp [load_all, get_var, hv, hset]

/-- Environment-variable map for the C9 witness: only the max-retries
variable is present, with a parsable value. -/
def envMapW (n : String) : Option String :=
  if n = maxRetriesEnvName then some "7" else none

/-- Filesystem oracle for the C9 witness. -/
def fsW : FsEnv :=
  ⟨fun _ => some "", fun _ => Except.ok true, fun _ => Except.ok ()⟩

/-- Configuration store for the C9 witness: the defaults of src/config/*. -/
def storeW : ConfigStore :=
  ⟨64, 1024, true, On_QueuePrintingFail.TryUntilMaxRetries,
   On_MaxRetriesReached.Return, On_QueueFull.KeepNewest, ""⟩

theorem C9_witness :
    (load_all envMapW fsW storeW).1.max_retries = 7 ∧
    (load_all envMapW fsW storeW).1.max_queue_length = 1024 :=
  ⟨((C9_load_all_frame envMapW fsW storeW).1.2.2 "7" 7 rfl (by decide)).1,
   ((C9_load_all_frame envMapW fsW storeW).2.1.1 (by decide)).1⟩

end ComfyPrint


